import Mathlib

/-!
Verification of the realtime session-synchronization client of the
codecollab frontend.  The definitions below are a shallow embedding of the
socket service (`src/services/socket.js`), the socket hooks
(`src/hooks/useSocket.js`) and the session components
(`src/components/Session/CodeEditor.js`, `src/components/Session/ChatWindow.js`,
`src/pages/Session.js`).  JavaScript `Map`/`Set` values are modelled as
functions / duplicate-free lists, `null`/`undefined` as `Option`, and each
socket event handler becomes an explicit state-transition function.
-/

namespace CodeCollab

/-! ### Event dispatcher (`SocketService.on` / `off` / `emit`, socket.js 245-287)

`eventListeners` is a JS `Map<string, Set<callback>>`; we model it as a
function from event names to duplicate-free lists of callback identifiers
(JS `Set` iterates in insertion order and ignores re-insertion of an
existing element).  `SocketService.on`/`off` first check `this.socket`
for null, so each operation records whether the socket was present. -/

/-- Listener registry: event name to the ordered callbacks registered for it. -/
def Registry := String → List Nat

/-- The registry of a freshly constructed `SocketService` (empty `Map`). -/
def emptyRegistry : Registry := fun _ => []

/-- `SocketService.on(eventName, callback)` (socket.js 245-255): no-op when
`this.socket` is null, otherwise adds `callback` to the event's `Set`
(insertion-order append, no effect if already present). -/
def regOn (present : Bool) (r : Registry) (ev : String) (cb : Nat) : Registry :=
  if present then
    fun e => if e = ev then (if cb ∈ r ev then r ev else r ev ++ [cb]) else r e
  else r

/-- `SocketService.off(eventName, callback)` (socket.js 257-266): no-op when
`this.socket` is null, otherwise deletes `callback` from the event's `Set`. -/
def regOff (present : Bool) (r : Registry) (ev : String) (cb : Nat) : Registry :=
  if present then
    fun e => if e = ev then (r ev).erase cb else r e
  else r

/-- One `on`/`off` call, tagged with whether `this.socket` was non-null. -/
inductive RegOp where
  | onOp (present : Bool) (ev : String) (cb : Nat)
  | offOp (present : Bool) (ev : String) (cb : Nat)

/-- Apply one registry operation. -/
def applyRegOp (r : Registry) : RegOp → Registry
  | .onOp present ev cb => regOn present r ev cb
  | .offOp present ev cb => regOff present r ev cb

/-- Apply a sequence of `on`/`off` calls starting from the empty registry. -/
def applyRegOps (ops : List RegOp) : Registry :=
  ops.foldl applyRegOp emptyRegistry

/-- The delivery loop of `SocketService.emit` (socket.js 277-287):
`forEach` over the event's callback set, each call wrapped in
`try { callback(data) } catch (error) { console.error(...) }`.
`throws cb` tells whether callback `cb` raises; in either branch the loop
records the invocation and continues with the remaining callbacks. -/
def deliver (throws : Nat → Bool) : List Nat → List Nat
  | [] => []
  | c :: rest =>
    if throws c then
      -- exception caught and logged; delivery continues
      c :: deliver throws rest
    else
      c :: deliver throws rest

/-! ### Execution session state (`useSessionSocket`, useSocket.js 303-334) -/

/-- The `executionState` slot of `useSessionSocket`.  The JS object fields
`result`, `error`, `executedBy` may be `null`/absent, hence `Option`. -/
structure ExecutionState where
  isRunning : Bool
  result : Option String
  error : Option String
  executedBy : Option String
deriving DecidableEq

/-- Initial `executionState` (useSocket.js 209-213): `executedBy` is absent. -/
def initExecutionState : ExecutionState :=
  { isRunning := false, result := none, error := none, executedBy := none }

/-- Inbound execution events with their wire payloads (spec taxonomy:
`execution-started{username}`, `execution-result{result,executedBy}`,
`execution-error{error}`). -/
inductive ExecEvent where
  | started (username : String)
  | result (result : String) (executedBy : String)
  | error (error : String)

/-- The three `useSessionSocket` execution listeners (useSocket.js 303-334);
each replaces the slot with a fresh object.  Note the `execution-error`
handler does not set `executedBy`, leaving it `undefined`. -/
def applyExecEvent (_s : ExecutionState) : ExecEvent → ExecutionState
  | .started u => { isRunning := true, result := none, error := none, executedBy := some u }
  | .result r eb => { isRunning := false, result := some r, error := none, executedBy := some eb }
  | .error e => { isRunning := false, result := none, error := some e, executedBy := none }

/-! ### Outbound operations of `SocketService` (socket.js 141-193)

Every send method begins with `if (!this.socket?.connected) return;` and then
emits exactly one message; none of them touches any other field of the
service.  We model each method as a function returning the (unchanged)
service state together with the list of messages put on the wire by the
call.  `operation` payloads are kept abstract as strings; `timestamp`
(`Date.now()`) is passed in as `now`. -/

/-- The transport handle: `this.socket`, which may be null, with its
`connected` flag. -/
structure Sock where
  connected : Bool
deriving DecidableEq

/-- The mutable fields of `SocketService` relevant to the send methods. -/
structure ServiceState where
  socket : Option Sock
  reconnectAttempts : Nat
deriving DecidableEq

/-- JS truthiness of `this.socket?.connected`. -/
def connectedB (st : ServiceState) : Bool :=
  match st.socket with
  | some s => s.connected
  | none => false

/-- Outbound wire messages (spec section 6, emitted by socket.js 141-193). -/
inductive OutMsg where
  | leaveSession (sessionId : String)
  | codeChange (sessionId code operation : String) (timestamp : Nat)
  | cursorPosition (sessionId position : String) (timestamp : Nat)
  | executeCode (sessionId code language input : String) (timestamp : Nat)
  | chatMessage (sessionId message : String) (timestamp : Nat)
deriving DecidableEq

/-- `SocketService.leaveSession(sessionId)` (socket.js 142-146). -/
def leaveSession (st : ServiceState) (sessionId : String) : ServiceState × List OutMsg :=
  if connectedB st then (st, [.leaveSession sessionId]) else (st, [])

/-- `SocketService.sendCodeChange(sessionId, code, operation)` (socket.js 149-158). -/
def sendCodeChange (st : ServiceState) (sessionId code operation : String) (now : Nat) :
    ServiceState × List OutMsg :=
  if connectedB st then (st, [.codeChange sessionId code operation now]) else (st, [])

/-- `SocketService.sendCursorPosition(sessionId, position)` (socket.js 161-169). -/
def sendCursorPosition (st : ServiceState) (sessionId position : String) (now : Nat) :
    ServiceState × List OutMsg :=
  if connectedB st then (st, [.cursorPosition sessionId position now]) else (st, [])

/-- `SocketService.executeCode(sessionId, code, language, input)` (socket.js 172-182). -/
def executeCode (st : ServiceState) (sessionId code language input : String) (now : Nat) :
    ServiceState × List OutMsg :=
  if connectedB st then (st, [.executeCode sessionId code language input now]) else (st, [])

/-- `SocketService.sendChatMessage(sessionId, message)` (socket.js 185-193). -/
def sendChatMessage (st : ServiceState) (sessionId message : String) (now : Nat) :
    ServiceState × List OutMsg :=
  if connectedB st then (st, [.chatMessage sessionId message now]) else (st, [])

/-- Two consecutive `leaveSession` calls for the same session id, threading
the service state and concatenating the wire traces. -/
def leaveSessionTwice (st : ServiceState) (sessionId : String) : ServiceState × List OutMsg :=
  let r1 := leaveSession st sessionId
  let r2 := leaveSession r1.1 sessionId
  (r2.1, r1.2 ++ r2.2)

/-! ### Connection status state machine
(`SocketService.setupEventListeners`, socket.js 37-106, composed with the
`useSocket` listeners, useSocket.js 50-82)

The `useSocket` hook keeps `connectionStatus`; each `custom:*` event emitted
by the service handlers maps to a status update.  The transport's automatic
retry behaviour comes from the options passed to `io(...)` in
`SocketService.connect` (socket.js 23-30): `reconnection: true`,
`reconnectionAttempts: this.maxReconnectAttempts` — the transport schedules
another attempt after a failed one only while the attempt count is below
that ceiling, after which it raises `reconnect_failed` and stops;
`retryScheduled` records whether a further automatic attempt is pending. -/

/-- The values `connectionStatus` takes in useSocket.js. -/
inductive ConnStatus where
  | disconnected
  | connecting
  | connected
  | error
  | authError
deriving DecidableEq

/-- `this.maxReconnectAttempts` (socket.js 11). -/
def maxReconnAttempts : Nat := 5

/-- Connection-level state: the service's `reconnectAttempts` counter and
`isConnected` flag, the hook's `connectionStatus`, and whether the transport
has a further automatic reconnect attempt pending. -/
structure ConnState where
  reconnectAttempts : Nat
  isConnected : Bool
  status : ConnStatus
  retryScheduled : Bool
deriving DecidableEq

/-- Transport-level connection events (socket.js 41-86). -/
inductive ConnEvent where
  | connectOk
  | disconnected (reason : String)
  | connectError
  | reconnectFailed

/-- One connection event, as handled by `setupEventListeners` (socket.js)
composed with `setupConnectionListeners` (useSocket.js):
* `connect`: `isConnected = true`, `reconnectAttempts = 0`,
  `custom:connected` sets status `connected`; no retry pending.
* `disconnect(reason)`: `isConnected = false`, `custom:disconnected` sets
  status `disconnected`; for `io server disconnect` the handler calls
  `this.socket.connect()` manually (socket.js 59-62), otherwise the
  transport auto-reconnects unless the client itself closed the socket.
* `connect_error`: `reconnectAttempts++`, `custom:connect_error` sets
  status `error`; the transport schedules a further attempt only while the
  new count is below `maxReconnectAttempts`.
* `reconnect_failed`: `custom:reconnect_failed` is emitted but
  `setupConnectionListeners` registers no listener for it, so the status is
  unchanged; the transport has stopped retrying. -/
def stepConn (s : ConnState) : ConnEvent → ConnState
  | .connectOk =>
    { reconnectAttempts := 0, isConnected := true, status := .connected,
      retryScheduled := false }
  | .disconnected reason =>
    { s with isConnected := false, status := .disconnected,
             retryScheduled := reason != "io client disconnect" }
  | .connectError =>
    { s with reconnectAttempts := s.reconnectAttempts + 1, status := .error,
             retryScheduled := decide (s.reconnectAttempts + 1 < maxReconnAttempts) }
  | .reconnectFailed =>
    { s with retryScheduled := false }

/-! ### Collaborative document state
(`useSessionSocket` code listeners, useSocket.js 237-248;
`useCodeEditorSocket`, useSocket.js 393-451; `CodeEditor`, CodeEditor.js 28-41
and 125-154)

Two buffers exist: `codeState` in `useSessionSocket` (set unconditionally by
both `code-sync` and `code-change`) and the Monaco editor document held by
`CodeEditor` (its `code` state plus the editor model, always set together).
`useCodeEditorSocket` forwards each inbound event to the `CodeEditor`
callback, which applies it only when `from !== 'self'`, the editor is
mounted (`editorRef.current`) and `suppressNextChangeRef.current` is false;
while applying, it arms `suppressNextChangeRef` so that the programmatic
`setValue` does not fire the local-change path, and disarms it before
returning. -/

/-- The document state held by `CodeEditor`: the editor buffer (`code` /
Monaco model), the `suppressNextChangeRef` flag, and whether the editor is
mounted (`editorRef.current !== null`). -/
structure EditorState where
  buf : String
  suppress : Bool
  mounted : Bool
deriving DecidableEq

/-- The `CodeEditor` socket callback (CodeEditor.js 34-41): applied for each
inbound `code-change` (with the event's `from`) and each inbound `code-sync`
(with `from = "server"`).  Inside the guarded branch the code runs
`suppressNextChangeRef.current = true; editor.setValue(newCode);
setCode(newCode); suppressNextChangeRef.current = false`, so the flag is
false again when the handler returns and the buffer holds `newCode`. -/
def applyEditorRemote (es : EditorState) (code fromField : String) : EditorState :=
  if fromField ≠ "self" ∧ es.mounted = true ∧ es.suppress = false then
    { es with buf := code, suppress := false }
  else es

/-- A local edit delivered through `onDidChangeModelContent`
(CodeEditor.js 125-154): returns early while `suppressNextChangeRef` is
armed, otherwise stores the new editor contents. -/
def applyEditorLocal (es : EditorState) (code : String) : EditorState :=
  if es.suppress then es else { es with buf := code }

/-- `handleEditorDidMount` (CodeEditor.js 70-171): the editor becomes
mounted and is seeded with the language template. -/
def applyEditorMount (es : EditorState) (template : String) : EditorState :=
  { buf := template, suppress := es.suppress, mounted := true }

/-- Combined document state: `codeState` of `useSessionSocket` plus the
`CodeEditor` state. -/
structure DocState where
  codeState : String
  editor : EditorState
deriving DecidableEq

/-- Document-level events: the two inbound wire events (delivered to both
the `useSessionSocket` listeners and the `useCodeEditorSocket` listeners),
editor mount, and a local edit in the editor. -/
inductive DocEvent where
  | recvCodeChange (code operation fromField : String)
  | recvCodeSync (code : String)
  | editorMount (template : String)
  | localEdit (code : String)

/-- One document event:
* `code-change{code, operation, from}`: `useSessionSocket` runs
  `setCodeState(data.code)` (useSocket.js 244-248) and `useCodeEditorSocket`
  calls the editor callback with `(data.code, data.operation, data.from)`
  (useSocket.js 426-432).
* `code-sync{code}`: `useSessionSocket` runs `setCodeState(data.code)`
  (useSocket.js 238-242) and `useCodeEditorSocket` calls the editor callback
  with `(data.code, 'sync', 'server')` (useSocket.js 435-441). -/
def stepDoc (s : DocState) : DocEvent → DocState
  | .recvCodeChange code _operation fromField =>
    { codeState := code, editor := applyEditorRemote s.editor code fromField }
  | .recvCodeSync code =>
    { codeState := code, editor := applyEditorRemote s.editor code "server" }
  | .editorMount template =>
    { s with editor := applyEditorMount s.editor template }
  | .localEdit code =>
    { s with editor := applyEditorLocal s.editor code }

/-- Initial document state: `useState('')` for `codeState`
(useSocket.js 206) and for the editor `code` (CodeEditor.js 23);
`suppressNextChangeRef` starts false (CodeEditor.js 29), editor not
mounted. -/
def initDoc : DocState :=
  { codeState := "", editor := { buf := "", suppress := false, mounted := false } }

/-- Run a sequence of document events from the initial state. -/
def runDoc (evs : List DocEvent) : DocState :=
  evs.foldl stepDoc initDoc

/-! ### Participant roster (`useSessionSocket`, useSocket.js 250-271) -/

/-- A roster entry as used by the listeners: addressed by `socketId`. -/
structure Participant where
  socketId : String
  username : String
deriving DecidableEq

/-- Roster events: wholesale replacement on `session-participants`,
append on `user-joined`, filter on `user-left`. -/
inductive RosterEvent where
  | sessionParticipants (l : List Participant)
  | userJoined (u : Participant)
  | userLeft (socketId : String)

/-- The three roster listeners (useSocket.js 250-271):
`session-participants` replaces the list, `user-joined` appends
`data.user`, `user-left` filters out entries whose `socketId` matches. -/
def applyRoster (r : List Participant) : RosterEvent → List Participant
  | .sessionParticipants l => l
  | .userJoined u => r ++ [u]
  | .userLeft sid => r.filter (fun p => p.socketId ≠ sid)

/-- The no-duplicate-connection-id roster invariant (spec section 3). -/
def rosterOk (r : List Participant) : Prop :=
  (r.map Participant.socketId).Nodup

instance (r : List Participant) : Decidable (rosterOk r) := by
  unfold rosterOk; infer_instance

/-! ### Typing indicators
(`useSessionSocket` typing listener, useSocket.js 289-301;
`ChatWindow` typing timeout effect, ChatWindow.js 81-97)

`typingUsers` is a JS `Set` of usernames, modelled as a duplicate-free
list.  The only writer is the `typing-status-update` listener.  No
`setTimeout` anywhere in the sources mutates `typingUsers`: the single
3000 ms timer (ChatWindow.js 87-89) calls `setIsTyping(false)`, which
clears `ChatWindow`'s own `isTyping` flag for the current user's chat
input, not the set fed by the network. -/

/-- The `typing-status-update` listener (useSocket.js 289-301): add the
username on `isTyping: true` (JS `Set.add`), delete it on `isTyping: false`
(JS `Set.delete`). -/
def applyTypingUpdate (s : List String) (username : String) (isTyping : Bool) : List String :=
  if isTyping then
    (if username ∈ s then s else s ++ [username])
  else s.erase username

/-- Run a sequence of `typing-status-update` events from the initial empty
set (useSocket.js 208). -/
def runTyping (evs : List (String × Bool)) : List String :=
  evs.foldl (fun s e => applyTypingUpdate s e.1 e.2) []

/-- Passage of `ms` milliseconds with no further events, as it affects the
`typingUsers` set of `useSessionSocket`: the source registers no timer that
mutates this set, so it is unchanged however much time passes. -/
def elapseTyping (s : List String) (_ms : Nat) : List String := s

/-- Passage of `ms` milliseconds on `ChatWindow`'s local `isTyping` flag:
the effect (ChatWindow.js 81-97) arms a 3000 ms timeout running
`setIsTyping(false)` whenever the flag is set. -/
def elapseChatLocalTyping (isTyping : Bool) (ms : Nat) : Bool :=
  if 3000 ≤ ms then false else isTyping

/-! ### Chat log
(`useSessionSocket` chat listener, useSocket.js 336-341;
`ChatWindow` history effect, ChatWindow.js 57-78)

The `chat-message` listener appends every inbound message to
`chatMessages`.  `ChatWindow` receives that list as its `messages` prop and
maintains `messageHistory`: an effect appends
`messages.filter(msg => !messageHistory.some(existing => existing.id === msg.id))`.
Each inbound message triggers one render and hence one run of the effect,
so the step below performs the listener append followed by one effect
run. -/

/-- A chat message as carried by the wire (spec section 3). -/
structure ChatMsg where
  id : Nat
  username : String
  content : String
  timestamp : Nat
deriving DecidableEq

/-- State of the chat pipeline: `chatMessages` (hook) and `messageHistory`
(ChatWindow). -/
structure ChatState where
  chatMessages : List ChatMsg
  messageHistory : List ChatMsg
deriving DecidableEq

/-- Delivery of one inbound `chat-message`: the listener appends it to
`chatMessages` (useSocket.js 337-341), then the `ChatWindow` effect
(ChatWindow.js 57-78) appends to `messageHistory` every prop message whose
id is not yet present there. -/
def stepChat (s : ChatState) (m : ChatMsg) : ChatState :=
  let cms := s.chatMessages ++ [m]
  let newMessages :=
    cms.filter (fun msg => !(s.messageHistory.any (fun e => e.id == msg.id)))
  { chatMessages := cms, messageHistory := s.messageHistory ++ newMessages }

/-- Initial chat state: both lists empty (useSocket.js 205,
ChatWindow.js 22). -/
def initChat : ChatState := { chatMessages := [], messageHistory := [] }

/-- Run a sequence of inbound chat messages from the initial state. -/
def runChat (ms : List ChatMsg) : ChatState :=
  ms.foldl stepChat initChat

/-! ## Helper lemmas -/

/-- `emit`'s delivery loop hands the event to every callback of the list,
in order, whether or not earlier callbacks throw (the `catch` branch
continues the loop). -/
theorem deliver_eq (throws : Nat → Bool) (l : List Nat) : deliver throws l = l := by
  induction l with
  | nil => rfl
  | cons c rest ih => simp [deliver, ih]

/-- A single `on`/`off` call keeps every event's callback list
duplicate-free. -/
theorem applyRegOp_nodup (r : Registry) (h : ∀ ev, (r ev).Nodup) (op : RegOp) :
    ∀ ev, (applyRegOp r op ev).Nodup := by
  intro ev
  cases op with
  | onOp present e cb =>
    simp only [applyRegOp, regOn]
    by_cases hp : present = true
    · simp only [hp, if_true]
      by_cases hev : ev = e
      · subst hev
        simp only [if_true]
        by_cases hcb : cb ∈ r ev
        · simpa [hcb] using h ev
        · simp [hcb, List.nodup_append, h ev]
      · simp [hev, h ev]
    · simp only [Bool.not_eq_true] at hp
      simp [hp, h ev]
  | offOp present e cb =>
    simp only [applyRegOp, regOff]
    by_cases hp : present = true
    · simp only [hp, if_true]
      by_cases hev : ev = e
      · subst hev
        simpa using (h ev).erase cb
      · simp [hev, h ev]
    · simp only [Bool.not_eq_true] at hp
      simp [hp, h ev]

/-- After any sequence of `on`/`off` calls, every event's callback list is
duplicate-free. -/
theorem applyRegOps_nodup (ops : List RegOp) : ∀ ev, (applyRegOps ops ev).Nodup := by
  suffices h : ∀ (ops : List RegOp) (r : Registry), (∀ ev, (r ev).Nodup) →
      ∀ ev, (ops.foldl applyRegOp r ev).Nodup by
    exact h ops emptyRegistry (fun _ => List.nodup_nil)
  intro ops
  induction ops with
  | nil => intro r hr; exact hr
  | cons op rest ih =>
    intro r hr
    exact ih (applyRegOp r op) (applyRegOp_nodup r hr op)

/-- One document event keeps the suppression guard disarmed: the remote
callback disarms it on its way out, the local path does not touch it. -/
theorem stepDoc_suppress (s : DocState) (e : DocEvent) (h : s.editor.suppress = false) :
    (stepDoc s e).editor.suppress = false := by
  cases e with
  | recvCodeChange c op f =>
    simp only [stepDoc, applyEditorRemote]
    split <;> simp [h]
  | recvCodeSync c =>
    simp only [stepDoc, applyEditorRemote]
    split <;> simp [h]
  | editorMount t => simpa [stepDoc, applyEditorMount] using h
  | localEdit c =>
    simp only [stepDoc, applyEditorLocal]
    split <;> simp [h]

/-- At every event-delivery point reachable from the initial state the
suppression guard is disarmed (`suppressNextChangeRef` is armed and
disarmed synchronously inside the remote-apply callback, CodeEditor.js
36-39, so no inbound event ever observes it armed). -/
theorem runDoc_suppress (evs : List DocEvent) : (runDoc evs).editor.suppress = false := by
  suffices h : ∀ (evs : List DocEvent) (s : DocState), s.editor.suppress = false →
      (evs.foldl stepDoc s).editor.suppress = false by
    exact h evs initDoc rfl
  intro evs
  induction evs with
  | nil => intro s hs; exact hs
  | cons e rest ih =>
    intro s hs
    exact ih (stepDoc s e) (stepDoc_suppress s e hs)

/-- The typing set stays duplicate-free under `typing-status-update`
events (JS `Set` semantics). -/
theorem applyTypingUpdate_nodup (s : List String) (h : s.Nodup) (u : String) (b : Bool) :
    (applyTypingUpdate s u b).Nodup := by
  cases b with
  | true =>
    simp only [applyTypingUpdate, if_true]
    by_cases hm : u ∈ s
    · simpa [hm] using h
    · simp [hm, List.nodup_append, h]
  | false => simpa [applyTypingUpdate] using h.erase u

/-- After any sequence of `typing-status-update` events the typing set is
duplicate-free. -/
theorem runTyping_nodup (evs : List (String × Bool)) : (runTyping evs).Nodup := by
  suffices h : ∀ (evs : List (String × Bool)) (s : List String), s.Nodup →
      (evs.foldl (fun s e => applyTypingUpdate s e.1 e.2) s).Nodup by
    exact h evs [] List.nodup_nil
  intro evs
  induction evs with
  | nil => intro s hs; exact hs
  | cons e rest ih =>
    intro s hs
    exact ih _ (applyTypingUpdate_nodup s hs e.1 e.2)

/-- Pipeline invariant: every id already delivered to `chatMessages` is
present in `messageHistory`. -/
def chatInv (s : ChatState) : Prop :=
  ∀ msg ∈ s.chatMessages, s.messageHistory.any (fun e => e.id == msg.id) = true

/-- Under the invariant, one delivery appends the new message to
`messageHistory` exactly when its id is absent there. -/
theorem stepChat_hist (s : ChatState) (m : ChatMsg) (h : chatInv s) :
    (stepChat s m).messageHistory =
      if s.messageHistory.any (fun e => e.id == m.id) then s.messageHistory
      else s.messageHistory ++ [m] := by
  have hfil : s.chatMessages.filter
      (fun msg => !(s.messageHistory.any (fun e => e.id == msg.id))) = [] := by
    simp only [List.filter_eq_nil_iff]
    intro a ha
    simp [h a ha]
  simp only [stepChat, List.filter_append, hfil, List.nil_append]
  by_cases hm : s.messageHistory.any (fun e => e.id == m.id) = true
  · simp [hm]
  · simp only [Bool.not_eq_true] at hm
    simp [hm]

/-- One delivery preserves the chat pipeline invariant. -/
theorem stepChat_inv (s : ChatState) (m : ChatMsg) (h : chatInv s) : chatInv (stepChat s m) := by
  intro msg hmsg
  rw [stepChat_hist s m h]
  have hcms : (stepChat s m).chatMessages = s.chatMessages ++ [m] := rfl
  rw [hcms] at hmsg
  rcases List.mem_append.1 hmsg with hold | hnew
  · by_cases hm : s.messageHistory.any (fun e => e.id == m.id) = true
    · simpa [hm] using h msg hold
    · simp only [Bool.not_eq_true] at hm
      simp [hm, List.any_append, h msg hold]
  · have hmeq : msg = m := by simpa using hnew
    subst hmeq
    by_cases hm : s.messageHistory.any (fun e => e.id == msg.id) = true
    · simp [hm]
    · simp only [Bool.not_eq_true] at hm
      simp [hm, List.any_append]

/-- The chat pipeline invariant holds in every reachable state. -/
theorem runChat_inv (ms : List ChatMsg) : chatInv (runChat ms) := by
  suffices h : ∀ (ms : List ChatMsg) (s : ChatState), chatInv s → chatInv (ms.foldl stepChat s) by
    refine h ms initChat ?_
    intro msg hmsg
    simp [initChat] at hmsg
  intro ms
  induction ms with
  | nil => intro s hs; exact hs
  | cons m rest ih =>
    intro s hs
    exact ih (stepChat s m) (stepChat_inv s m hs)

/-! ## Claim theorems -/

/-- C1: an inbound `code-change` event whose `from` field equals `"self"`
leaves the editor document buffer unchanged in every reachable state, and
the suppression guard is disarmed after that (single) skipped
application. -/
theorem c1_self_echo_skipped (evs : List DocEvent) (code operation : String) :
    (stepDoc (runDoc evs) (.recvCodeChange code operation "self")).editor.buf =
      (runDoc evs).editor.buf ∧
    (stepDoc (runDoc evs) (.recvCodeChange code operation "self")).editor.suppress = false := by
  have hed : (stepDoc (runDoc evs) (.recvCodeChange code operation "self")).editor =
      (runDoc evs).editor := by
    simp [stepDoc, applyEditorRemote]
  exact ⟨by rw [hed], by rw [hed]; exact runDoc_suppress evs⟩

/-- C2: an inbound `code-sync` event replaces the document buffer with the
event's full-document code in every reachable state: `codeState`
unconditionally, and the mounted editor's buffer as well (the suppression
guard is provably disarmed at every delivery point, so it never blocks a
sync). -/
theorem c2_code_sync_replaces (evs : List DocEvent) (code : String) :
    (stepDoc (runDoc evs) (.recvCodeSync code)).codeState = code ∧
    ((runDoc evs).editor.mounted = true →
      (stepDoc (runDoc evs) (.recvCodeSync code)).editor.buf = code) := by
  constructor
  · rfl
  · intro hm
    simp [stepDoc, applyEditorRemote, hm, runDoc_suppress evs]

/-- Witness for C2: after the editor mounts with a template, a
`code-sync{code:"x=1"}` makes both buffers exactly `"x=1"`. -/
theorem c2_code_sync_replaces_witness :
    (stepDoc (runDoc [.editorMount "tmpl"]) (.recvCodeSync "x=1")).codeState = "x=1" ∧
    (stepDoc (runDoc [.editorMount "tmpl"]) (.recvCodeSync "x=1")).editor.buf = "x=1" :=
  ⟨(c2_code_sync_replaces [.editorMount "tmpl"] "x=1").1,
   (c2_code_sync_replaces [.editorMount "tmpl"] "x=1").2 (by decide)⟩

/-- C3: after any sequence of `on`/`off` calls, dispatching an event through
`SocketService.emit` invokes exactly the callbacks currently registered for
that event name, each exactly once (the registered list is duplicate-free,
so re-registering a pair does not double-deliver), and this delivery list is
the same whichever callbacks throw (the `try`/`catch` isolates each
failure). -/
theorem c3_dispatch_exact (ops : List RegOp) (throws : Nat → Bool) (ev : String) :
    deliver throws (applyRegOps ops ev) = applyRegOps ops ev ∧
    (applyRegOps ops ev).Nodup :=
  ⟨deliver_eq throws (applyRegOps ops ev), applyRegOps_nodup ops ev⟩

/-- C4: starting from any state, after a successful connect followed by
`maxReconnectAttempts` (5) consecutive `connect_error` events, the status is
the failure state `error` — distinct from ordinary `disconnected` — no
further automatic reconnect attempt is scheduled, and the subsequent
`reconnect_failed` notification leaves it that way. -/
theorem c4_reconnect_ceiling (s : ConnState) :
    ((List.replicate maxReconnAttempts ConnEvent.connectError).foldl stepConn
        (stepConn s .connectOk)).status = .error ∧
    ((List.replicate maxReconnAttempts ConnEvent.connectError).foldl stepConn
        (stepConn s .connectOk)).status ≠ .disconnected ∧
    ((List.replicate maxReconnAttempts ConnEvent.connectError).foldl stepConn
        (stepConn s .connectOk)).retryScheduled = false ∧
    (stepConn ((List.replicate maxReconnAttempts ConnEvent.connectError).foldl stepConn
        (stepConn s .connectOk)) .reconnectFailed).status = .error ∧
    (stepConn ((List.replicate maxReconnAttempts ConnEvent.connectError).foldl stepConn
        (stepConn s .connectOk)) .reconnectFailed).retryScheduled = false := by
  have h : stepConn s .connectOk =
      { reconnectAttempts := 0, isConnected := true, status := .connected,
        retryScheduled := false } := rfl
  rw [h]
  decide

/-- C5: from any execution state, `execution-started{username}` sets the
slot to `{isRunning: true, executedBy: username, result: null, error: null}`,
and each terminal event clears `isRunning` and populates exactly one of
`result`/`error`, never both. -/
theorem c5_execution_slot (s : ExecutionState) (u r eb err : String) :
    applyExecEvent s (.started u) =
      { isRunning := true, result := none, error := none, executedBy := some u } ∧
    ((applyExecEvent s (.result r eb)).isRunning = false ∧
      (applyExecEvent s (.result r eb)).result = some r ∧
      (applyExecEvent s (.result r eb)).error = none) ∧
    ((applyExecEvent s (.error err)).isRunning = false ∧
      (applyExecEvent s (.error err)).error = some err ∧
      (applyExecEvent s (.error err)).result = none) ∧
    ¬((applyExecEvent s (.result r eb)).result.isSome ∧
      (applyExecEvent s (.result r eb)).error.isSome) ∧
    ¬((applyExecEvent s (.error err)).result.isSome ∧
      (applyExecEvent s (.error err)).error.isSome) := by
  simp [applyExecEvent]

/-- C6 counterexample: `typing-status-update{username:"alice", isTyping:true}`
puts alice in the typing set and she is still there after 5000 ms with no
further events — no local timer removes entries from this set, contrary to
the claim that the flag auto-clears within the ~3-second window. -/
theorem c6_no_auto_expiry_counterexample :
    elapseTyping (runTyping [("alice", true)]) 5000 = ["alice"] ∧
    "alice" ∈ elapseTyping (runTyping [("alice", true)]) 5000 := by
  decide

/-- C6 amended: a user added to the typing set by
`typing-status-update{isTyping:true}` stays in the set however much time
passes with no further events, and is removed exactly by an explicit
`{isTyping:false}` event; the ~3-second timer in the chat window only
auto-clears the local user's own typing flag. -/
theorem c6_typing_persistence (evs : List (String × Bool)) (u : String) (ms : Nat) :
    elapseTyping (runTyping evs) ms = runTyping evs ∧
    u ∉ applyTypingUpdate (runTyping evs) u false ∧
    elapseChatLocalTyping true 3000 = false := by
  refine ⟨rfl, ?_, rfl⟩
  have h : applyTypingUpdate (runTyping evs) u false = (runTyping evs).erase u := by
    simp [applyTypingUpdate]
  rw [h]
  intro hm
  rw [List.Nodup.mem_erase_iff (runTyping_nodup evs)] at hm
  exact hm.1 rfl

/-- C7: a delivered chat message is appended to the deduplicated message
log exactly when no existing entry shares its id, and the arrival order
with ids `[1, 2, 2, 3]` yields a log with ids `[1, 2, 3]`, each once. -/
theorem c7_chat_dedup (ms : List ChatMsg) (m : ChatMsg) :
    (stepChat (runChat ms) m).messageHistory =
      (if (runChat ms).messageHistory.any (fun e => e.id == m.id) then
        (runChat ms).messageHistory
      else (runChat ms).messageHistory ++ [m]) ∧
    (runChat [⟨1, "a", "m1", 10⟩, ⟨2, "b", "m2", 11⟩, ⟨2, "b", "m2", 11⟩,
        ⟨3, "c", "m3", 12⟩]).messageHistory.map ChatMsg.id = [1, 2, 3] :=
  ⟨stepChat_hist (runChat ms) m (runChat_inv ms), by decide⟩

/-- C8 counterexample: with a connected socket, two consecutive
`leaveSession` calls for session `"ABCDEF"` put two `leave-session`
messages on the wire, not one — the second call is not a no-op. -/
theorem c8_leave_twice_counterexample :
    (leaveSessionTwice { socket := some { connected := true }, reconnectAttempts := 0 }
        "ABCDEF").2 =
      [OutMsg.leaveSession "ABCDEF", OutMsg.leaveSession "ABCDEF"] ∧
    (leaveSessionTwice { socket := some { connected := true }, reconnectAttempts := 0 }
        "ABCDEF").2.length ≠ 1 := by
  decide

/-- C8 amended: `leaveSession` carries no idempotence guard — each call
while the socket is connected emits one `leave-session` message (so two
calls emit two), each call while disconnected emits none, and the service
state is unchanged either way. -/
theorem c8_leave_not_idempotent (st : ServiceState) (sid : String) :
    (leaveSessionTwice st sid).2 =
      (if connectedB st then [OutMsg.leaveSession sid, OutMsg.leaveSession sid] else []) ∧
    (leaveSessionTwice st sid).1 = st := by
  by_cases h : connectedB st = true
  · simp [leaveSessionTwice, leaveSession, h]
  · simp only [Bool.not_eq_true] at h
    simp [leaveSessionTwice, leaveSession, h]

/-- C9 counterexample: the roster `[⟨"s1","alice"⟩]` satisfies the
no-duplicate-connection-id invariant, but a (duplicate) `user-joined` event
for the same connection id breaks it — `user-joined` appends
unconditionally. -/
theorem c9_duplicate_join_counterexample :
    rosterOk [{ socketId := "s1", username := "alice" }] ∧
    ¬ rosterOk (applyRoster [{ socketId := "s1", username := "alice" }]
        (.userJoined { socketId := "s1", username := "alice" })) := by
  decide

/-- C9 amended: `user-left` preserves the no-duplicate invariant;
`session-participants` establishes it whenever the server-sent list is
itself duplicate-free; `user-joined` preserves it only when the joining
participant's connection id is not already in the roster (a duplicate
`user-joined` event creates a duplicate entry). -/
theorem c9_roster_invariant (r l : List Participant) (u : Participant) (sid : String) :
    (rosterOk r → rosterOk (applyRoster r (.userLeft sid))) ∧
    (rosterOk l → rosterOk (applyRoster r (.sessionParticipants l))) ∧
    (rosterOk r → u.socketId ∉ r.map Participant.socketId →
      rosterOk (applyRoster r (.userJoined u))) := by
  refine ⟨?_, ?_, ?_⟩
  · intro h
    unfold rosterOk applyRoster
    exact ((List.filter_sublist r).map Participant.socketId).nodup h
  · intro h
    exact h
  · intro h hu
    unfold rosterOk at h ⊢
    unfold applyRoster
    simp [List.nodup_append, h, hu]

/-- Witness for C9 amended: applying `user-left`, `session-participants`
and a fresh `user-joined` to the singleton roster keeps it duplicate-free. -/
theorem c9_roster_invariant_witness :
    rosterOk (applyRoster [{ socketId := "s1", username := "alice" }] (.userLeft "s1")) ∧
    rosterOk (applyRoster [{ socketId := "s1", username := "alice" }]
      (.sessionParticipants [{ socketId := "s2", username := "bob" }])) ∧
    rosterOk (applyRoster [{ socketId := "s1", username := "alice" }]
      (.userJoined { socketId := "s2", username := "bob" })) :=
  ⟨(c9_roster_invariant [⟨"s1", "alice"⟩] [⟨"s2", "bob"⟩] ⟨"s2", "bob"⟩ "s1").1 (by decide),
   (c9_roster_invariant [⟨"s1", "alice"⟩] [⟨"s2", "bob"⟩] ⟨"s2", "bob"⟩ "s1").2.1 (by decide),
   (c9_roster_invariant [⟨"s1", "alice"⟩] [⟨"s2", "bob"⟩] ⟨"s2", "bob"⟩ "s1").2.2
     (by decide) (by decide)⟩

/-- C10: when the socket is not connected, every outbound operation —
`leaveSession`, `sendCodeChange`, `sendCursorPosition`, `executeCode`,
`sendChatMessage` — returns with the service state unchanged and an empty
wire trace: the message is dropped, not queued. -/
theorem c10_drop_when_disconnected (st : ServiceState)
    (sid code operation position language input message : String) (now : Nat)
    (h : connectedB st = false) :
    leaveSession st sid = (st, []) ∧
    sendCodeChange st sid code operation now = (st, []) ∧
    sendCursorPosition st sid position now = (st, []) ∧
    executeCode st sid code language input now = (st, []) ∧
    sendChatMessage st sid message now = (st, []) := by
  simp [leaveSession, sendCodeChange, sendCursorPosition, executeCode, sendChatMessage, h]

/-- Witness for C10: with a null socket every outbound operation drops its
message and leaves the state unchanged. -/
theorem c10_drop_when_disconnected_witness :
    leaveSession { socket := none, reconnectAttempts := 0 } "ABCDEF" =
      ({ socket := none, reconnectAttempts := 0 }, []) ∧
    sendCodeChange { socket := none, reconnectAttempts := 0 } "ABCDEF" "x=1" "edit" 42 =
      ({ socket := none, reconnectAttempts := 0 }, []) ∧
    sendCursorPosition { socket := none, reconnectAttempts := 0 } "ABCDEF" "1:2" 42 =
      ({ socket := none, reconnectAttempts := 0 }, []) ∧
    executeCode { socket := none, reconnectAttempts := 0 } "ABCDEF" "x=1" "python" "" 42 =
      ({ socket := none, reconnectAttempts := 0 }, []) ∧
    sendChatMessage { socket := none, reconnectAttempts := 0 } "ABCDEF" "hi" 42 =
      ({ socket := none, reconnectAttempts := 0 }, []) :=
  c10_drop_when_disconnected { socket := none, reconnectAttempts := 0 }
    "ABCDEF" "x=1" "edit" "1:2" "python" "" "hi" 42 (by decide)

end CodeCollab
